import Mathlib

/-!
Verification of the QuickPay payment stack.

The account-ledger service (src/account/app.py: withdraw, deposit) and the
settlement service (src/settlement/app.py: save_transaction) are embedded
directly from the source.  The payment orchestrator and its compensation
manager are described by the specification but their source file is not in
the repository snapshot (the file under the payment service holds an auth
service); those two components are modelled from the spec, and every
definition below says which of the two origins it has.

Databases are modelled as association lists from identifier to integer
balance; an SQL UPDATE on a keyed row is an update of every entry with the
matching key, and a lookup returns the first matching entry.
-/

namespace QuickPay

/-- Error kinds appearing in the JSON error bodies of the services. -/
inductive ApiError
  | MISSING_FIELDS
  | INVALID_AMOUNT
  | USER_NOT_FOUND
  | INSUFFICIENT_FUNDS
  | INVALID_REQUEST
  | TRANSACTION_STORE_FAIL
  deriving DecidableEq, Repr

/-- An HTTP response: an optional error body and a status code.
A successful call has an empty (error-free) body. -/
structure Resp where
  error : Option ApiError
  status : Nat
  deriving DecidableEq, Repr

/-- The accounts table of the account service: user id to integer balance.
A user is registered exactly when it has an entry. -/
abbrev Ledger := List (String × Int)

/-- First entry with the given key, as SELECT balance WHERE user_id = uid. -/
def lookupBal : Ledger → String → Option Int
  | [], _ => none
  | (u, b) :: rest, uid => if u = uid then some b else lookupBal rest uid

/-- UPDATE accounts SET balance = nb WHERE user_id = uid. -/
def setBal : Ledger → String → Int → Ledger
  | [], _, _ => []
  | (u, b) :: rest, uid, nb =>
    if u = uid then (u, nb) :: setBal rest uid nb
    else (u, b) :: setBal rest uid nb

/-- Embeds the deposit endpoint of src/account/app.py.  A missing or empty
user id or a missing amount is rejected as MISSING_FIELDS; an unknown user
is rejected as USER_NOT_FOUND; otherwise the balance is unconditionally
incremented by the given amount, with no sign or range check, and an empty
200 response is returned. -/
def deposit (led : Ledger) (uid : Option String) (amt : Option Int) :
    Resp × Ledger :=
  if uid.getD "" = "" ∨ amt = none then
    (⟨some .MISSING_FIELDS, 400⟩, led)
  else
    match lookupBal led (uid.getD "") with
    | none => (⟨some .USER_NOT_FOUND, 404⟩, led)
    | some b => (⟨none, 200⟩, setBal led (uid.getD "") (b + amt.getD 0))

/-- Embeds the withdraw endpoint of src/account/app.py.  After the missing
field check, a non-positive amount is rejected as INVALID_AMOUNT with 400,
an unknown user as USER_NOT_FOUND with 404, an amount above the current
balance as INSUFFICIENT_FUNDS with 403; otherwise the balance is
decremented and an empty 200 response is returned. -/
def withdraw (led : Ledger) (uid : Option String) (amt : Option Int) :
    Resp × Ledger :=
  if uid.getD "" = "" ∨ amt = none then
    (⟨some .MISSING_FIELDS, 400⟩, led)
  else if amt.getD 0 ≤ 0 then
    (⟨some .INVALID_AMOUNT, 400⟩, led)
  else
    match lookupBal led (uid.getD "") with
    | none => (⟨some .USER_NOT_FOUND, 404⟩, led)
    | some b =>
      if b < amt.getD 0 then
        (⟨some .INSUFFICIENT_FUNDS, 403⟩, led)
      else
        (⟨none, 200⟩, setBal led (uid.getD "") (b - amt.getD 0))

/-- State of the settlement service database: the Settlement rows in
insertion order and the MerchantBalance table. -/
structure SettlementDB where
  settlements : List (String × Int)
  merchants : Ledger
  deriving DecidableEq, Repr

/-- The JSON body sent to the settlement record endpoint.  The source
reads only merchant_id and amount from it. -/
structure SettleReq where
  transaction_id : Option String
  user_id : Option String
  merchant_id : Option String
  amount : Option Int
  deriving DecidableEq, Repr

/-- Embeds save_transaction of src/settlement/app.py.  A missing or empty
merchant id or a missing amount is rejected with INVALID_REQUEST and 400.
The commitFails flag models the except branch: the single commit raises,
the session is rolled back, the state is unchanged and
TRANSACTION_STORE_FAIL is returned with 500.  Otherwise one Settlement row
is appended and the merchant balance is incremented in the same commit,
the merchant row being created with balance 0 first when absent. -/
def save_transaction (sdb : SettlementDB) (req : SettleReq)
    (commitFails : Bool) : Resp × SettlementDB :=
  if req.merchant_id.getD "" = "" ∨ req.amount = none then
    (⟨some .INVALID_REQUEST, 400⟩, sdb)
  else if commitFails then
    (⟨some .TRANSACTION_STORE_FAIL, 500⟩, sdb)
  else
    let mid := req.merchant_id.getD ""
    let amt := req.amount.getD 0
    let newRows := sdb.settlements ++ [(mid, amt)]
    match lookupBal sdb.merchants mid with
    | none => (⟨none, 200⟩, ⟨newRows, sdb.merchants ++ [(mid, 0 + amt)]⟩)
    | some b => (⟨none, 200⟩, ⟨newRows, setBal sdb.merchants mid (b + amt)⟩)

/-- Modelled from the spec: the Compensation Manager's default maximum
attempt count (5); the source of the orchestrator is not in the snapshot. -/
def COMP_MAX_RETRY : Nat := 5

/-- Modelled from the spec: the Compensation Manager's fixed delay between
attempts, in time units (2); the sleep itself has no observable effect on
the state, only the configured value is recorded. -/
def COMP_RETRY_DELAY : Nat := 2

/-- Modelled from the spec: the retry loop of the Compensation Manager.
The oracle net says for each attempt index whether that credit-back call
reaches the ledger service (a network exception and a non-success response
are treated identically as a failed attempt).  Arguments: remaining
budget, attempts already made, current ledger.  Returns whether a success
response was received, the total number of attempted calls, and the final
ledger. -/
def compensateGo (net : Nat → Bool) (uid : String) (amt : Int) :
    Nat → Nat → Ledger → Bool × Nat × Ledger
  | 0, made, led => (false, made, led)
  | n + 1, made, led =>
    if net made then
      let d := deposit led (some uid) (some amt)
      if d.1.status = 200 then (true, made + 1, d.2)
      else compensateGo net uid amt n (made + 1) d.2
    else compensateGo net uid amt n (made + 1) led

/-- Modelled from the spec: compensate re-invokes the credit-back until a
success response or budget exhaustion, starting with zero attempts made. -/
def compensate (maxAttempts : Nat) (net : Nat → Bool) (led : Ledger)
    (uid : String) (amt : Int) : Bool × Nat × Ledger :=
  compensateGo net uid amt maxAttempts 0 led

/-- The inbound payment request of the orchestrator. -/
structure PaymentRequest where
  payer : Option String
  merchant : Option String
  amount : Option Int
  deriving DecidableEq, Repr

/-- Terminal outcomes of one saga, per the orchestrator state machine. -/
inductive Outcome
  | success
  | MISSING_FIELDS
  | INVALID_AMOUNT
  | ledgerReject (e : ApiError)
  | SERVICE_UNAVAILABLE
  | TRANSACTION_STORE_FAIL
  | CRITICAL_COMPENSATION_FAIL
  deriving DecidableEq, Repr

/-- Modelled from the spec: the Request Validator checks that both ids are
present and non-empty and the amount is present and positive, before any
network call. -/
def validateRequest (req : PaymentRequest) : Option Outcome :=
  if req.payer.getD "" = "" ∨ req.merchant.getD "" = "" ∨ req.amount = none
  then some .MISSING_FIELDS
  else if req.amount.getD 0 ≤ 0 then some .INVALID_AMOUNT
  else none

/-- Environment of one saga run: the generated transaction id, whether the
debit call reaches the ledger, whether the settlement record call both
reaches the settlement service and commits, and the per-attempt oracle for
the compensating credit-back calls. -/
structure SagaEnv where
  txid : String
  debitNet : Bool
  recordOk : Bool
  compNet : Nat → Bool

/-- Number of network calls attempted toward each downstream operation. -/
structure CallCounts where
  debit : Nat
  record : Nat
  comp : Nat
  deriving DecidableEq, Repr

/-- Result of one saga run: terminal outcome, HTTP-equivalent status,
final ledger, final settlement database, and the call counts. -/
structure SagaResult where
  outcome : Outcome
  status : Nat
  ledger : Ledger
  sdb : SettlementDB
  calls : CallCounts
  deriving Repr

/-- Modelled from the spec: processPayment, the Payment Orchestrator.
Validation first with no calls on failure; then the debit through the
embedded withdraw (SERVICE_UNAVAILABLE on transport failure, ledger errors
passed through unchanged); then the settlement record through the embedded
save_transaction; on record failure the Compensation Manager is invoked,
yielding TRANSACTION_STORE_FAIL when it succeeds and
CRITICAL_COMPENSATION_FAIL when the budget is exhausted. -/
def processPayment (env : SagaEnv) (led : Ledger) (sdb : SettlementDB)
    (req : PaymentRequest) : SagaResult :=
  match validateRequest req with
  | some e => ⟨e, 400, led, sdb, ⟨0, 0, 0⟩⟩
  | none =>
    if env.debitNet = false then
      ⟨.SERVICE_UNAVAILABLE, 503, led, sdb, ⟨1, 0, 0⟩⟩
    else
      let w := withdraw led req.payer req.amount
      if w.1.status = 200 then
        let s := save_transaction sdb
          ⟨some env.txid, req.payer, req.merchant, req.amount⟩ (!env.recordOk)
        if s.1.status = 200 then
          ⟨.success, 200, w.2, s.2, ⟨1, 1, 0⟩⟩
        else
          let c := compensate COMP_MAX_RETRY env.compNet w.2
            (req.payer.getD "") (req.amount.getD 0)
          if c.1 then
            ⟨.TRANSACTION_STORE_FAIL, 500, c.2.2, s.2, ⟨1, 1, c.2.1⟩⟩
          else
            ⟨.CRITICAL_COMPENSATION_FAIL, 500, c.2.2, s.2, ⟨1, 1, c.2.1⟩⟩
      else
        ⟨.ledgerReject (w.1.error.getD .MISSING_FIELDS), w.1.status, w.2,
          sdb, ⟨1, 0, 0⟩⟩

/-- Consistency of one saga run seen from outside: either nothing changed
for the payer and no settlement row was written, or the run is a recorded
success in which the payer lost exactly the amount, one settlement row was
appended and the merchant gained exactly the amount. -/
def sagaConsistent (led : Ledger) (sdb : SettlementDB)
    (req : PaymentRequest) (r : SagaResult) : Prop :=
  (lookupBal r.ledger (req.payer.getD "") =
      lookupBal led (req.payer.getD "") ∧
   r.sdb.settlements = sdb.settlements)
  ∨ (r.outcome = .success ∧ ∃ a b, req.amount = some a ∧
      lookupBal led (req.payer.getD "") = some b ∧
      lookupBal r.ledger (req.payer.getD "") = some (b - a) ∧
      r.sdb.settlements = sdb.settlements ++ [(req.merchant.getD "", a)] ∧
      lookupBal r.sdb.merchants (req.merchant.getD "") =
        some ((lookupBal sdb.merchants (req.merchant.getD "")).getD 0 + a))

/-- Updating a key rewrites exactly the looked-up value. -/
theorem lookupBal_setBal (led : Ledger) (uid : String) (nb : Int) :
    lookupBal (setBal led uid nb) uid =
      (lookupBal led uid).map (fun _ => nb) := by
  induction led with
  | nil => rfl
  | cons p rest ih =>
    obtain ⟨u, b⟩ := p
    by_cases h : u = uid
    · simp [lookupBal, setBal, h]
    · simp [lookupBal, setBal, h, ih]

/-- Appending a row with a fresh key makes it the looked-up value. -/
theorem lookupBal_append_fresh (led : Ledger) (uid : String) (v : Int)
    (h : lookupBal led uid = none) :
    lookupBal (led ++ [(uid, v)]) uid = some v := by
  induction led with
  | nil => simp [lookupBal]
  | cons p rest ih =>
    obtain ⟨u, b⟩ := p
    by_cases hu : u = uid
    · simp [lookupBal, hu] at h
    · simp [lookupBal, hu] at h ⊢
      exact ih h

/-- A deposit for a registered user with both fields present always
returns the empty 200 response and increments the balance. -/
theorem deposit_ok (led : Ledger) (uid : String) (amt b : Int)
    (hu : uid ≠ "") (hb : lookupBal led uid = some b) :
    deposit led (some uid) (some amt) =
      (⟨none, 200⟩, setBal led uid (b + amt)) := by
  simp [deposit, hu, hb]

/-- A withdraw within the balance succeeds and decrements the balance. -/
theorem withdraw_ok (led : Ledger) (uid : String) (amt b : Int)
    (hu : uid ≠ "") (hb : lookupBal led uid = some b)
    (h0 : 0 < amt) (hle : amt ≤ b) :
    withdraw led (some uid) (some amt) =
      (⟨none, 200⟩, setBal led uid (b - amt)) := by
  simp only [withdraw, Option.getD_some, hb]
  rw [if_neg (by simp [hu]), if_neg (by omega), if_neg (by omega)]

/-- A withdraw above the balance is rejected with INSUFFICIENT_FUNDS and
status 403 and leaves the ledger unchanged. -/
theorem withdraw_over (led : Ledger) (uid : String) (amt b : Int)
    (hu : uid ≠ "") (hb : lookupBal led uid = some b)
    (h0 : 0 < amt) (hgt : b < amt) :
    withdraw led (some uid) (some amt) =
      (⟨some .INSUFFICIENT_FUNDS, 403⟩, led) := by
  simp only [withdraw, Option.getD_some, hb]
  rw [if_neg (by simp [hu]), if_neg (by omega), if_pos (by omega)]

/-- A withdraw for an unknown user is rejected with 404 unchanged. -/
theorem withdraw_notfound (led : Ledger) (uid : String) (amt : Int)
    (hu : uid ≠ "") (h0 : 0 < amt) (hb : lookupBal led uid = none) :
    withdraw led (some uid) (some amt) =
      (⟨some .USER_NOT_FOUND, 404⟩, led) := by
  simp only [withdraw, Option.getD_some, hb]
  rw [if_neg (by simp [hu]), if_neg (by omega)]

/-- Every non-200 outcome of withdraw leaves the ledger unchanged. -/
theorem withdraw_ne200_unchanged (led : Ledger) (u : Option String)
    (a : Option Int) (h : (withdraw led u a).1.status ≠ 200) :
    (withdraw led u a).2 = led := by
  unfold withdraw at h ⊢
  by_cases h1 : u.getD "" = "" ∨ a = none
  · simp [h1]
  · simp only [h1, if_false] at h ⊢
    by_cases h2 : a.getD 0 ≤ 0
    · simp [h2]
    · simp only [h2, if_false] at h ⊢
      rcases hlk : lookupBal led (u.getD "") with _ | b
      · simp [hlk]
      · simp only [hlk] at h ⊢
        by_cases h3 : b < a.getD 0
        · simp [h3]
        · simp [h3] at h

/-- Inversion of a 200 withdraw: the fields were present and valid, the
user registered with sufficient balance, and the ledger was decremented. -/
theorem withdraw_200_inv (led : Ledger) (u : Option String)
    (a : Option Int) (h : (withdraw led u a).1.status = 200) :
    ∃ uid amt b, u = some uid ∧ uid ≠ "" ∧ a = some amt ∧
      lookupBal led uid = some b ∧ 0 < amt ∧ amt ≤ b ∧
      (withdraw led u a).1 = ⟨none, 200⟩ ∧
      (withdraw led u a).2 = setBal led uid (b - amt) := by
  rcases u with _ | uid
  · simp [withdraw] at h
  · rcases a with _ | amt
    · simp [withdraw] at h
    · by_cases hu : uid = ""
      · simp [withdraw, hu] at h
      · by_cases h2 : amt ≤ 0
        · simp [withdraw, hu, h2] at h
        · rcases hlk : lookupBal led uid with _ | b
          · simp [withdraw, hu, h2, hlk] at h
          · by_cases h3 : b < amt
            · simp [withdraw, hu, h2, hlk, h3] at h
            · refine ⟨uid, amt, b, rfl, hu, rfl, hlk, by omega, by omega,
                ?_, ?_⟩
              · simp [withdraw, hu, h2, hlk, h3]
              · simp [withdraw, hu, h2, hlk, h3]

/-- When every attempt in the remaining budget fails, the loop reports
failure, makes exactly that many further calls and leaves the ledger
unchanged. -/
theorem compensateGo_all_fail (net : Nat → Bool) (uid : String)
    (amt : Int) :
    ∀ (n made : Nat) (led : Ledger),
      (∀ k, k < n → net (made + k) = false) →
      compensateGo net uid amt n made led = (false, made + n, led) := by
  intro n
  induction n with
  | zero => intro made led _; simp [compensateGo]
  | succ m ih =>
    intro made led h
    have h0 : net made = false := by simpa using h 0 (by omega)
    have hrest : ∀ k, k < m → net (made + 1 + k) = false := by
      intro k hk
      have := h (k + 1) (by omega)
      have harith : made + 1 + k = made + (k + 1) := by omega
      rw [harith]
      exact this
    have harith2 : made + 1 + m = made + (m + 1) := by omega
    simp only [compensateGo, h0, Bool.false_eq_true, if_false]
    rw [ih (made + 1) led hrest, harith2]

/-- For a registered user, the first reachable attempt receives a success
response: the loop stops there, having made exactly that many calls, with
the credit applied once. -/
theorem compensateGo_first_ok (net : Nat → Bool) (uid : String)
    (amt : Int) (hu : uid ≠ "") :
    ∀ (n i made : Nat) (led : Ledger) (b : Int),
      lookupBal led uid = some b →
      i < n → net (made + i) = true →
      (∀ j, j < i → net (made + j) = false) →
      compensateGo net uid amt n made led =
        (true, made + i + 1, setBal led uid (b + amt)) := by
  intro n
  induction n with
  | zero => intro i made led b _ hi _ _; omega
  | succ m ih =>
    intro i made led b hb hi hnet hprev
    cases i with
    | zero =>
      have h0 : net made = true := by simpa using hnet
      simp only [compensateGo, h0, if_true,
        deposit_ok led uid amt b hu hb]
    | succ j =>
      have h0 : net made = false := by simpa using hprev 0 (by omega)
      have hnet1 : net (made + 1 + j) = true := by
        have harith : made + 1 + j = made + (j + 1) := by omega
        rw [harith]; exact hnet
      have hprev1 : ∀ k, k < j → net (made + 1 + k) = false := by
        intro k hk
        have harith : made + 1 + k = made + (k + 1) := by omega
        rw [harith]; exact hprev (k + 1) (by omega)
      have harith2 : made + 1 + j + 1 = made + (j + 1) + 1 := by omega
      simp only [compensateGo, h0, Bool.false_eq_true, if_false]
      rw [ih j (made + 1) led b hb (by omega) hnet1 hprev1, harith2]

/-- For a registered user, if some attempt within the remaining budget is
reachable then the loop reports success and the final ledger carries the
credit applied exactly once. -/
theorem compensateGo_exists_ok (net : Nat → Bool) (uid : String)
    (amt : Int) (hu : uid ≠ "") :
    ∀ (n made : Nat) (led : Ledger) (b : Int),
      lookupBal led uid = some b →
      (∃ i, i < n ∧ net (made + i) = true) →
      (compensateGo net uid amt n made led).1 = true ∧
      (compensateGo net uid amt n made led).2.2 =
        setBal led uid (b + amt) := by
  intro n
  induction n with
  | zero => intro made led b _ h; obtain ⟨i, hi, _⟩ := h; omega
  | succ m ih =>
    intro made led b hb h
    by_cases h0 : net made = true
    · simp [compensateGo, h0, deposit_ok led uid amt b hu hb]
    · have h0f : net made = false := by
        cases hmn : net made
        · rfl
        · exact absurd hmn h0
      obtain ⟨i, hi, hni⟩ := h
      cases i with
      | zero => rw [Nat.add_zero] at hni; exact absurd hni h0
      | succ j =>
        have hni1 : net (made + 1 + j) = true := by
          have harith : made + 1 + j = made + (j + 1) := by omega
          rw [harith]; exact hni
        simp only [compensateGo, h0f, Bool.false_eq_true, if_false]
        exact ih (made + 1) led b hb ⟨j, by omega, hni1⟩

/-- Whatever the oracle, the loop either succeeds having applied the
credit exactly once to a registered user, or fails having left the ledger
unchanged. -/
theorem compensateGo_ledger (net : Nat → Bool) (uid : String)
    (amt : Int) (hu : uid ≠ "") :
    ∀ (n made : Nat) (led : Ledger) (b : Int),
      lookupBal led uid = some b →
      ((compensateGo net uid amt n made led).1 = true ∧
        (compensateGo net uid amt n made led).2.2 =
          setBal led uid (b + amt)) ∨
      ((compensateGo net uid amt n made led).1 = false ∧
        (compensateGo net uid amt n made led).2.2 = led) := by
  intro n
  induction n with
  | zero => intro made led b _; right; simp [compensateGo]
  | succ m ih =>
    intro made led b hb
    by_cases h0 : net made = true
    · left
      simp [compensateGo, h0, deposit_ok led uid amt b hu hb]
    · have h0f : net made = false := by
        cases hmn : net made
        · rfl
        · exact absurd hmn h0
      simp only [compensateGo, h0f, Bool.false_eq_true, if_false]
      exact ih (made + 1) led b hb

/-- Inversion of a passed validation: both ids are present and non-empty
and the amount is present and positive. -/
theorem validateRequest_none_inv (req : PaymentRequest)
    (h : validateRequest req = none) :
    ∃ p m a, req.payer = some p ∧ p ≠ "" ∧ req.merchant = some m ∧
      m ≠ "" ∧ req.amount = some a ∧ 0 < a := by
  unfold validateRequest at h
  by_cases h1 : req.payer.getD "" = "" ∨ req.merchant.getD "" = "" ∨
      req.amount = none
  · simp [h1] at h
  · by_cases h2 : req.amount.getD 0 ≤ 0
    · simp [h1, h2] at h
    · push_neg at h1
      obtain ⟨hp, hm, ha⟩ := h1
      rcases hup : req.payer with _ | p
      · rw [hup] at hp; simp at hp
      · rcases hum : req.merchant with _ | m
        · rw [hum] at hm; simp at hm
        · rcases hua : req.amount with _ | a
          · exact absurd hua ha
          · refine ⟨p, m, a, rfl, ?_, rfl, ?_, rfl, ?_⟩
            · rw [hup] at hp; simpa using hp
            · rw [hum] at hm; simpa using hm
            · rw [hua] at h2; simp at h2; omega

/-- A record call past validation whose commit goes through appends one
row and credits the merchant. -/
theorem save_transaction_commit (sdb : SettlementDB) (req : SettleReq)
    (hm : req.merchant_id.getD "" ≠ "") (ha : req.amount ≠ none) :
    save_transaction sdb req false =
      (⟨none, 200⟩,
        ⟨sdb.settlements ++ [(req.merchant_id.getD "", req.amount.getD 0)],
          match lookupBal sdb.merchants (req.merchant_id.getD "") with
          | none => sdb.merchants ++
              [(req.merchant_id.getD "", 0 + req.amount.getD 0)]
          | some b => setBal sdb.merchants (req.merchant_id.getD "")
              (b + req.amount.getD 0)⟩) := by
  unfold save_transaction
  rw [if_neg (by simp [hm, ha]), if_neg (by simp)]
  rcases hlk : lookupBal sdb.merchants (req.merchant_id.getD "") with _ | b
  · simp [hlk]
  · simp [hlk]

/-- A record call past validation whose commit raises rolls back: the
state is unchanged and TRANSACTION_STORE_FAIL is returned with 500. -/
theorem save_transaction_rollback (sdb : SettlementDB) (req : SettleReq)
    (hm : req.merchant_id.getD "" ≠ "") (ha : req.amount ≠ none) :
    save_transaction sdb req true =
      (⟨some .TRANSACTION_STORE_FAIL, 500⟩, sdb) := by
  unfold save_transaction
  rw [if_neg (by simp [hm, ha]), if_pos rfl]

/-- Evaluation of the saga on the happy path: valid request, registered
payer with sufficient balance, reachable ledger, healthy settlement. -/
theorem processPayment_success_eval (env : SagaEnv) (led : Ledger)
    (sdb : SettlementDB) (payer merchant : String) (amt b : Int)
    (hp : payer ≠ "") (hm : merchant ≠ "")
    (hb : lookupBal led payer = some b) (h0 : 0 < amt) (hle : amt ≤ b)
    (hd : env.debitNet = true) (hr : env.recordOk = true) :
    processPayment env led sdb ⟨some payer, some merchant, some amt⟩ =
      ⟨.success, 200, setBal led payer (b - amt),
        ⟨sdb.settlements ++ [(merchant, amt)],
          match lookupBal sdb.merchants merchant with
          | none => sdb.merchants ++ [(merchant, 0 + amt)]
          | some mb => setBal sdb.merchants merchant (mb + amt)⟩,
        ⟨1, 1, 0⟩⟩ := by
  have hv : validateRequest ⟨some payer, some merchant, some amt⟩ = none := by
    simp only [validateRequest]
    rw [if_neg (by simp [hp, hm]), if_neg (by simp; omega)]
  have hsave := save_transaction_commit sdb
    ⟨some env.txid, some payer, some merchant, some amt⟩
    (by simpa using hm) (by simp)
  rcases hmer : lookupBal sdb.merchants merchant with _ | mb <;>
    simp_all [processPayment,
      withdraw_ok led payer amt b hp hb h0 hle]

/-- Evaluation of the saga when the debit succeeded and the record call
fails: the run ends in the compensation branch, whose result is given by
compensate on the debited ledger. -/
theorem processPayment_comp_eval (env : SagaEnv) (led : Ledger)
    (sdb : SettlementDB) (payer merchant : String) (amt b : Int)
    (hp : payer ≠ "") (hm : merchant ≠ "")
    (hb : lookupBal led payer = some b) (h0 : 0 < amt) (hle : amt ≤ b)
    (hd : env.debitNet = true) (hr : env.recordOk = false) :
    processPayment env led sdb ⟨some payer, some merchant, some amt⟩ =
      (if (compensate COMP_MAX_RETRY env.compNet
            (setBal led payer (b - amt)) payer amt).1 then
        ⟨.TRANSACTION_STORE_FAIL, 500,
          (compensate COMP_MAX_RETRY env.compNet
            (setBal led payer (b - amt)) payer amt).2.2, sdb,
          ⟨1, 1, (compensate COMP_MAX_RETRY env.compNet
            (setBal led payer (b - amt)) payer amt).2.1⟩⟩
      else
        ⟨.CRITICAL_COMPENSATION_FAIL, 500,
          (compensate COMP_MAX_RETRY env.compNet
            (setBal led payer (b - amt)) payer amt).2.2, sdb,
          ⟨1, 1, (compensate COMP_MAX_RETRY env.compNet
            (setBal led payer (b - amt)) payer amt).2.1⟩⟩) := by
  have hv : validateRequest ⟨some payer, some merchant, some amt⟩ = none := by
    simp only [validateRequest]
    rw [if_neg (by simp [hp, hm]), if_neg (by simp; omega)]
  have hsave := save_transaction_rollback sdb
    ⟨some env.txid, some payer, some merchant, some amt⟩
    (by simpa using hm) (by simp)
  simp_all [processPayment, withdraw_ok led payer amt b hp hb h0 hle]

/-- Evaluation of the saga when the payer's balance is below the amount:
the INSUFFICIENT_FUNDS rejection of the ledger is passed through with its
status 403 and nothing was touched. -/
theorem processPayment_over_eval (env : SagaEnv) (led : Ledger)
    (sdb : SettlementDB) (payer merchant : String) (amt b : Int)
    (hp : payer ≠ "") (hm : merchant ≠ "")
    (hb : lookupBal led payer = some b) (h0 : 0 < amt) (hgt : b < amt)
    (hd : env.debitNet = true) :
    processPayment env led sdb ⟨some payer, some merchant, some amt⟩ =
      ⟨.ledgerReject .INSUFFICIENT_FUNDS, 403, led, sdb, ⟨1, 0, 0⟩⟩ := by
  have hv : validateRequest ⟨some payer, some merchant, some amt⟩ = none := by
    simp only [validateRequest]
    rw [if_neg (by simp [hp, hm]), if_neg (by simp; omega)]
  simp_all [processPayment, withdraw_over led payer amt b hp hb h0 hgt]

/-- Every saga run not ending in CRITICAL_COMPENSATION_FAIL is
consistent: either nothing changed for the payer and no settlement row was
written, or the payment is a fully recorded success. -/
theorem processPayment_consistent (env : SagaEnv) (led : Ledger)
    (sdb : SettlementDB) (req : PaymentRequest)
    (h : (processPayment env led sdb req).outcome ≠
      Outcome.CRITICAL_COMPENSATION_FAIL) :
    sagaConsistent led sdb req (processPayment env led sdb req) := by
  obtain ⟨up, um, ua⟩ := req
  rcases hv : validateRequest ⟨up, um, ua⟩ with _ | e
  case some => left; constructor <;> simp [processPayment, hv]
  case none =>
  obtain ⟨p, m, a, hup, hp, hum, hm, hua, ha⟩ :=
    validateRequest_none_inv _ hv
  simp only at hup hum hua
  subst hup; subst hum; subst hua
  cases hdn : env.debitNet
  case false => left; constructor <;> simp [processPayment, hv, hdn]
  case true =>
  rcases hblk : lookupBal led p with _ | b
  · have hw := withdraw_notfound led p a hp ha hblk
    left; constructor <;> simp [processPayment, hv, hdn, hw]
  · by_cases hba : b < a
    · have hw := withdraw_over led p a b hp hblk ha hba
      left; constructor <;> simp [processPayment, hv, hdn, hw]
    · have hle : a ≤ b := by omega
      rcases hro : env.recordOk
      · rw [processPayment_comp_eval env led sdb p m a b hp hm hblk ha
          hle hdn hro] at h ⊢
        have hlk1 : lookupBal (setBal led p (b - a)) p = some (b - a) := by
          simp [lookupBal_setBal, hblk]
        rcases compensateGo_ledger env.compNet p a hp COMP_MAX_RETRY 0
            (setBal led p (b - a)) (b - a) hlk1 with ⟨hc1, hc2⟩ | ⟨hc1, hc2⟩
        · left
          have harith : b - a + a = b := by omega
          rw [harith] at hc2
          have hc1c : (compensate COMP_MAX_RETRY env.compNet
              (setBal led p (b - a)) p a).1 = true := hc1
          have hc2c : (compensate COMP_MAX_RETRY env.compNet
                (setBal led p (b - a)) p a).2.2 =
              setBal (setBal led p (b - a)) p b := hc2
          constructor
          · simp [hc1c, hc2c, lookupBal_setBal, hblk]
          · simp [hc1c]
        · exfalso
          have hc1c : (compensate COMP_MAX_RETRY env.compNet
              (setBal led p (b - a)) p a).1 = false := hc1
          simp [hc1c] at h
      · rw [processPayment_success_eval env led sdb p m a b hp hm hblk ha
          hle hdn hro]
        right
        refine ⟨rfl, a, b, rfl, by simpa using hblk, ?_, rfl, ?_⟩
        · simp [lookupBal_setBal, hblk]
        · rcases hmer : lookupBal sdb.merchants m with _ | mb
          · simp [hmer, lookupBal_append_fresh sdb.merchants m _ hmer]
          · simp [hmer, lookupBal_setBal]

/-- C1: the compensating credit-back is retried up to a configured
maximum attempt count (default 5) with a fixed configured delay (default
2 time units) between attempts; it reports success on the first attempt
that receives a success response, and reports failure only after all
attempts are exhausted, in which case the number of attempted calls
equals exactly the configured maximum. -/
theorem compensation_retry_budget :
    COMP_MAX_RETRY = 5 ∧ COMP_RETRY_DELAY = 2 ∧
    (∀ (maxAttempts : Nat) (net : Nat → Bool) (led : Ledger)
        (uid : String) (amt : Int),
      (∀ k, k < maxAttempts → net k = false) →
      compensate maxAttempts net led uid amt = (false, maxAttempts, led)) ∧
    (∀ (maxAttempts : Nat) (net : Nat → Bool) (led : Ledger)
        (uid : String) (amt b : Int) (i : Nat),
      uid ≠ "" → lookupBal led uid = some b →
      i < maxAttempts → net i = true → (∀ j, j < i → net j = false) →
      compensate maxAttempts net led uid amt =
        (true, i + 1, setBal led uid (b + amt))) := by
  refine ⟨rfl, rfl, ?_, ?_⟩
  · intro maxAttempts net led uid amt hfail
    have h := compensateGo_all_fail net uid amt maxAttempts 0 led
      (fun k hk => by simpa using hfail k hk)
    simpa [compensate] using h
  · intro maxAttempts net led uid amt b i hu hb hi hn hprev
    have h := compensateGo_first_ok net uid amt hu maxAttempts i 0 led b hb
      hi (by simpa using hn) (fun j hj => by simpa using hprev j hj)
    simpa [compensate] using h

/-- Witness for C1: with every attempt failing, exactly 5 calls are made
and failure is reported; with the first success on attempt index 1, the
loop stops after 2 calls with the credit applied. -/
theorem compensation_retry_budget_witness :
    compensate 5 (fun _ => false) [("user1", 40000)] "user1" 10000 =
      (false, 5, [("user1", 40000)]) ∧
    compensate 5 (fun k => k == 1) [("user1", 40000)] "user1" 10000 =
      (true, 2, [("user1", 50000)]) := by
  constructor
  · exact compensation_retry_budget.2.2.1 5 (fun _ => false)
      [("user1", 40000)] "user1" 10000 (fun k _ => rfl)
  · exact compensation_retry_budget.2.2.2 5 (fun k => k == 1)
      [("user1", 40000)] "user1" 10000 40000 1 (by decide) (by decide)
      (by decide) (by decide)
      (fun j hj => by
        have hj0 : j = 0 := by omega
        subst hj0; rfl)

/-- C2: when the debit succeeded, the settlement record call fails and
the compensating credit succeeds within the retry budget, the caller
receives TRANSACTION_STORE_FAIL (status 500) and the final payer balance
equals the pre-payment balance. -/
theorem record_fail_comp_ok_net_zero (env : SagaEnv) (led : Ledger)
    (sdb : SettlementDB) (payer merchant : String) (amt b : Int)
    (hp : payer ≠ "") (hm : merchant ≠ "")
    (hb : lookupBal led payer = some b) (h0 : 0 < amt) (hle : amt ≤ b)
    (hd : env.debitNet = true) (hr : env.recordOk = false)
    (hc : ∃ i, i < COMP_MAX_RETRY ∧ env.compNet i = true) :
    (processPayment env led sdb
        ⟨some payer, some merchant, some amt⟩).outcome =
      Outcome.TRANSACTION_STORE_FAIL ∧
    (processPayment env led sdb
        ⟨some payer, some merchant, some amt⟩).status = 500 ∧
    lookupBal (processPayment env led sdb
        ⟨some payer, some merchant, some amt⟩).ledger payer = some b := by
  rw [processPayment_comp_eval env led sdb payer merchant amt b hp hm hb
    h0 hle hd hr]
  have hlk1 : lookupBal (setBal led payer (b - amt)) payer =
      some (b - amt) := by
    simp [lookupBal_setBal, hb]
  obtain ⟨i, hi, hni⟩ := hc
  have hcomp := compensateGo_exists_ok env.compNet payer amt hp
    COMP_MAX_RETRY 0 (setBal led payer (b - amt)) (b - amt) hlk1
    ⟨i, hi, by simpa using hni⟩
  have hc1 : (compensate COMP_MAX_RETRY env.compNet
      (setBal led payer (b - amt)) payer amt).1 = true := hcomp.1
  have hc2 : (compensate COMP_MAX_RETRY env.compNet
        (setBal led payer (b - amt)) payer amt).2.2 =
      setBal (setBal led payer (b - amt)) payer (b - amt + amt) := hcomp.2
  have harith : b - amt + amt = b := by omega
  rw [harith] at hc2
  refine ⟨by simp [hc1], by simp [hc1], ?_⟩
  simp [hc1, hc2, lookupBal_setBal, hb]

/-- Witness for C2: concrete scenario C of the spec, compensation
succeeding on attempt 2 of 5: TRANSACTION_STORE_FAIL, status 500, final
balance restored to 50000. -/
theorem record_fail_comp_ok_net_zero_witness :
    (processPayment ⟨"t1", true, false, fun k => k == 1⟩
        [("user1", 50000)] ⟨[], []⟩
        ⟨some "user1", some "m1", some 10000⟩).outcome =
      Outcome.TRANSACTION_STORE_FAIL ∧
    (processPayment ⟨"t1", true, false, fun k => k == 1⟩
        [("user1", 50000)] ⟨[], []⟩
        ⟨some "user1", some "m1", some 10000⟩).status = 500 ∧
    lookupBal (processPayment ⟨"t1", true, false, fun k => k == 1⟩
        [("user1", 50000)] ⟨[], []⟩
        ⟨some "user1", some "m1", some 10000⟩).ledger "user1" =
      some 50000 := by
  exact record_fail_comp_ok_net_zero ⟨"t1", true, false, fun k => k == 1⟩
    [("user1", 50000)] ⟨[], []⟩ "user1" "m1" 10000 50000 (by decide)
    (by decide) (by decide) (by decide) (by decide) rfl rfl
    ⟨1, by decide, rfl⟩

/-- C3: when the debit succeeded, the record call failed and every
compensating attempt failed, the caller receives
CRITICAL_COMPENSATION_FAIL with status 500, the payer stays decremented
by the amount with no settlement record, the full budget was attempted;
and every run not ending in this outcome is consistent, so this is the
only failure mode leaving persistent inconsistency. -/
theorem comp_exhausted_critical :
    (∀ (env : SagaEnv) (led : Ledger) (sdb : SettlementDB)
        (payer merchant : String) (amt b : Int),
      payer ≠ "" → merchant ≠ "" → lookupBal led payer = some b →
      0 < amt → amt ≤ b → env.debitNet = true → env.recordOk = false →
      (∀ i, i < COMP_MAX_RETRY → env.compNet i = false) →
      (processPayment env led sdb
          ⟨some payer, some merchant, some amt⟩).outcome =
        Outcome.CRITICAL_COMPENSATION_FAIL ∧
      (processPayment env led sdb
          ⟨some payer, some merchant, some amt⟩).status = 500 ∧
      lookupBal (processPayment env led sdb
          ⟨some payer, some merchant, some amt⟩).ledger payer =
        some (b - amt) ∧
      (processPayment env led sdb
          ⟨some payer, some merchant, some amt⟩).sdb = sdb ∧
      (processPayment env led sdb
          ⟨some payer, some merchant, some amt⟩).calls.comp =
        COMP_MAX_RETRY) ∧
    (∀ (env : SagaEnv) (led : Ledger) (sdb : SettlementDB)
        (req : PaymentRequest),
      (processPayment env led sdb req).outcome ≠
        Outcome.CRITICAL_COMPENSATION_FAIL →
      sagaConsistent led sdb req (processPayment env led sdb req)) := by
  constructor
  · intro env led sdb payer merchant amt b hp hm hb h0 hle hd hr hfail
    rw [processPayment_comp_eval env led sdb payer merchant amt b hp hm hb
      h0 hle hd hr]
    have hall := compensateGo_all_fail env.compNet payer amt
      COMP_MAX_RETRY 0 (setBal led payer (b - amt))
      (fun k hk => by simpa using hfail k hk)
    have hc : compensate COMP_MAX_RETRY env.compNet
        (setBal led payer (b - amt)) payer amt =
        (false, COMP_MAX_RETRY, setBal led payer (b - amt)) := by
      simpa [compensate] using hall
    refine ⟨by simp [hc], by simp [hc], ?_, by simp [hc], by simp [hc]⟩
    simp [hc, lookupBal_setBal, hb]
  · exact processPayment_consistent

/-- Witness for C3: concrete scenario D of the spec, all 5 attempts
failing: CRITICAL_COMPENSATION_FAIL, status 500, final balance 40000, no
settlement row, exactly 5 attempted calls; and a healthy run of the same
payment is consistent. -/
theorem comp_exhausted_critical_witness :
    (processPayment ⟨"t1", true, false, fun _ => false⟩ [("user1", 50000)]
        ⟨[], []⟩ ⟨some "user1", some "m1", some 10000⟩).outcome =
      Outcome.CRITICAL_COMPENSATION_FAIL ∧
    (processPayment ⟨"t1", true, false, fun _ => false⟩ [("user1", 50000)]
        ⟨[], []⟩ ⟨some "user1", some "m1", some 10000⟩).status = 500 ∧
    lookupBal (processPayment ⟨"t1", true, false, fun _ => false⟩
        [("user1", 50000)] ⟨[], []⟩
        ⟨some "user1", some "m1", some 10000⟩).ledger "user1" =
      some 40000 ∧
    (processPayment ⟨"t1", true, false, fun _ => false⟩ [("user1", 50000)]
        ⟨[], []⟩ ⟨some "user1", some "m1", some 10000⟩).sdb =
      ⟨[], []⟩ ∧
    (processPayment ⟨"t1", true, false, fun _ => false⟩ [("user1", 50000)]
        ⟨[], []⟩
        ⟨some "user1", some "m1", some 10000⟩).calls.comp = 5 ∧
    sagaConsistent [("user1", 50000)] ⟨[], []⟩
      ⟨some "user1", some "m1", some 10000⟩
      (processPayment ⟨"t1", true, true, fun _ => false⟩
        [("user1", 50000)] ⟨[], []⟩
        ⟨some "user1", some "m1", some 10000⟩) := by
  have h := comp_exhausted_critical.1 ⟨"t1", true, false, fun _ => false⟩
    [("user1", 50000)] ⟨[], []⟩ "user1" "m1" 10000 50000 (by decide)
    (by decide) (by decide) (by decide) (by decide) rfl rfl
    (fun i _ => rfl)
  have h2 := comp_exhausted_critical.2 ⟨"t1", true, true, fun _ => false⟩
    [("user1", 50000)] ⟨[], []⟩ ⟨some "user1", some "m1", some 10000⟩
    (by decide)
  exact ⟨h.1, h.2.1, h.2.2.1, h.2.2.2.1, h.2.2.2.2, h2⟩

/-- C4: a valid payment with sufficient payer balance and a healthy
settlement service succeeds: the response is success, the payer's balance
decreases by exactly the amount, the merchant's balance increases by
exactly the amount and one settlement row is recorded. -/
theorem happy_path_balances (env : SagaEnv) (led : Ledger)
    (sdb : SettlementDB) (payer merchant : String) (amt b : Int)
    (hp : payer ≠ "") (hm : merchant ≠ "")
    (hb : lookupBal led payer = some b) (h0 : 0 < amt) (hle : amt ≤ b)
    (hd : env.debitNet = true) (hr : env.recordOk = true) :
    (processPayment env led sdb
        ⟨some payer, some merchant, some amt⟩).outcome =
      Outcome.success ∧
    (processPayment env led sdb
        ⟨some payer, some merchant, some amt⟩).status = 200 ∧
    lookupBal (processPayment env led sdb
        ⟨some payer, some merchant, some amt⟩).ledger payer =
      some (b - amt) ∧
    lookupBal (processPayment env led sdb
        ⟨some payer, some merchant, some amt⟩).sdb.merchants merchant =
      some ((lookupBal sdb.merchants merchant).getD 0 + amt) ∧
    (processPayment env led sdb
        ⟨some payer, some merchant, some amt⟩).sdb.settlements =
      sdb.settlements ++ [(merchant, amt)] := by
  rw [processPayment_success_eval env led sdb payer merchant amt b hp hm
    hb h0 hle hd hr]
  refine ⟨rfl, rfl, ?_, ?_, rfl⟩
  · simp [lookupBal_setBal, hb]
  · rcases hmer : lookupBal sdb.merchants merchant with _ | mb
    · simp [hmer, lookupBal_append_fresh sdb.merchants merchant _ hmer]
    · simp [hmer, lookupBal_setBal]

/-- Witness for C4: concrete scenario A of the spec, payer balance 50000
and amount 10000: success, payer ends at 40000, merchant gains 10000. -/
theorem happy_path_balances_witness :
    (processPayment ⟨"t1", true, true, fun _ => false⟩ [("user1", 50000)]
        ⟨[], []⟩ ⟨some "user1", some "m1", some 10000⟩).outcome =
      Outcome.success ∧
    (processPayment ⟨"t1", true, true, fun _ => false⟩ [("user1", 50000)]
        ⟨[], []⟩ ⟨some "user1", some "m1", some 10000⟩).status = 200 ∧
    lookupBal (processPayment ⟨"t1", true, true, fun _ => false⟩
        [("user1", 50000)] ⟨[], []⟩
        ⟨some "user1", some "m1", some 10000⟩).ledger "user1" =
      some 40000 ∧
    lookupBal (processPayment ⟨"t1", true, true, fun _ => false⟩
        [("user1", 50000)] ⟨[], []⟩
        ⟨some "user1", some "m1", some 10000⟩).sdb.merchants "m1" =
      some 10000 ∧
    (processPayment ⟨"t1", true, true, fun _ => false⟩ [("user1", 50000)]
        ⟨[], []⟩
        ⟨some "user1", some "m1", some 10000⟩).sdb.settlements =
      [("m1", 10000)] := by
  exact happy_path_balances ⟨"t1", true, true, fun _ => false⟩
    [("user1", 50000)] ⟨[], []⟩ "user1" "m1" 10000 50000 (by decide)
    (by decide) (by decide) (by decide) (by decide) rfl rfl

/-- C5: a payment whose amount exceeds the payer's balance is rejected
with the ledger's INSUFFICIENT_FUNDS error and status 403, the balance is
unchanged and no settlement call occurs. -/
theorem insufficient_funds_no_settlement (env : SagaEnv) (led : Ledger)
    (sdb : SettlementDB) (payer merchant : String) (amt b : Int)
    (hp : payer ≠ "") (hm : merchant ≠ "")
    (hb : lookupBal led payer = some b) (h0 : 0 < amt) (hgt : b < amt)
    (hd : env.debitNet = true) :
    (processPayment env led sdb
        ⟨some payer, some merchant, some amt⟩).outcome =
      Outcome.ledgerReject ApiError.INSUFFICIENT_FUNDS ∧
    (processPayment env led sdb
        ⟨some payer, some merchant, some amt⟩).status = 403 ∧
    (processPayment env led sdb
        ⟨some payer, some merchant, some amt⟩).ledger = led ∧
    (processPayment env led sdb
        ⟨some payer, some merchant, some amt⟩).sdb = sdb ∧
    (processPayment env led sdb
        ⟨some payer, some merchant, some amt⟩).calls.record = 0 ∧
    (processPayment env led sdb
        ⟨some payer, some merchant, some amt⟩).calls.comp = 0 := by
  rw [processPayment_over_eval env led sdb payer merchant amt b hp hm hb
    h0 hgt hd]
  exact ⟨rfl, rfl, rfl, rfl, rfl, rfl⟩

/-- Witness for C5: concrete scenario B of the spec, balance 5000 and
amount 10000: INSUFFICIENT_FUNDS, status 403, balance unchanged. -/
theorem insufficient_funds_no_settlement_witness :
    (processPayment ⟨"t1", true, true, fun _ => false⟩ [("user1", 5000)]
        ⟨[], []⟩ ⟨some "user1", some "m1", some 10000⟩).outcome =
      Outcome.ledgerReject ApiError.INSUFFICIENT_FUNDS ∧
    (processPayment ⟨"t1", true, true, fun _ => false⟩ [("user1", 5000)]
        ⟨[], []⟩ ⟨some "user1", some "m1", some 10000⟩).status = 403 ∧
    (processPayment ⟨"t1", true, true, fun _ => false⟩ [("user1", 5000)]
        ⟨[], []⟩ ⟨some "user1", some "m1", some 10000⟩).ledger =
      [("user1", 5000)] ∧
    (processPayment ⟨"t1", true, true, fun _ => false⟩ [("user1", 5000)]
        ⟨[], []⟩ ⟨some "user1", some "m1", some 10000⟩).sdb = ⟨[], []⟩ ∧
    (processPayment ⟨"t1", true, true, fun _ => false⟩ [("user1", 5000)]
        ⟨[], []⟩
        ⟨some "user1", some "m1", some 10000⟩).calls.record = 0 ∧
    (processPayment ⟨"t1", true, true, fun _ => false⟩ [("user1", 5000)]
        ⟨[], []⟩
        ⟨some "user1", some "m1", some 10000⟩).calls.comp = 0 := by
  exact insufficient_funds_no_settlement ⟨"t1", true, true, fun _ => false⟩
    [("user1", 5000)] ⟨[], []⟩ "user1" "m1" 10000 5000 (by decide)
    (by decide) (by decide) (by decide) (by decide) rfl

/-- C6: a request with a missing payer id, merchant id or amount, or a
non-positive amount, fails validation with MISSING_FIELDS or
INVALID_AMOUNT, makes no network call at all and mutates no state. -/
theorem invalid_request_no_calls (env : SagaEnv) (led : Ledger)
    (sdb : SettlementDB) (req : PaymentRequest)
    (h : req.payer = none ∨ req.merchant = none ∨ req.amount = none ∨
      req.amount.getD 0 ≤ 0) :
    ((processPayment env led sdb req).outcome = Outcome.MISSING_FIELDS ∨
     (processPayment env led sdb req).outcome = Outcome.INVALID_AMOUNT) ∧
    (processPayment env led sdb req).ledger = led ∧
    (processPayment env led sdb req).sdb = sdb ∧
    (processPayment env led sdb req).calls = ⟨0, 0, 0⟩ := by
  have hv : validateRequest req = some Outcome.MISSING_FIELDS ∨
      validateRequest req = some Outcome.INVALID_AMOUNT := by
    unfold validateRequest
    by_cases h1 : req.payer.getD "" = "" ∨ req.merchant.getD "" = "" ∨
        req.amount = none
    · left; simp [h1]
    · right
      push_neg at h1
      have h2 : req.amount.getD 0 ≤ 0 := by
        rcases h with h | h | h | h
        · rw [h] at h1; simp at h1
        · rw [h] at h1; simp at h1
        · exact absurd h h1.2.2
        · exact h
      rw [if_neg (by push_neg; exact h1), if_pos h2]
  rcases hv with hv | hv <;>
    exact ⟨by simp [processPayment, hv], by simp [processPayment, hv],
      by simp [processPayment, hv], by simp [processPayment, hv]⟩

/-- Witness for C6: a request with a non-positive amount is classified,
makes no call and changes nothing. -/
theorem invalid_request_no_calls_witness :
    ((processPayment ⟨"t1", true, true, fun _ => false⟩ [("user1", 5000)]
        ⟨[], []⟩ ⟨some "user1", some "m1", some (-5)⟩).outcome =
      Outcome.MISSING_FIELDS ∨
     (processPayment ⟨"t1", true, true, fun _ => false⟩ [("user1", 5000)]
        ⟨[], []⟩ ⟨some "user1", some "m1", some (-5)⟩).outcome =
      Outcome.INVALID_AMOUNT) ∧
    (processPayment ⟨"t1", true, true, fun _ => false⟩ [("user1", 5000)]
        ⟨[], []⟩ ⟨some "user1", some "m1", some (-5)⟩).ledger =
      [("user1", 5000)] ∧
    (processPayment ⟨"t1", true, true, fun _ => false⟩ [("user1", 5000)]
        ⟨[], []⟩ ⟨some "user1", some "m1", some (-5)⟩).sdb = ⟨[], []⟩ ∧
    (processPayment ⟨"t1", true, true, fun _ => false⟩ [("user1", 5000)]
        ⟨[], []⟩ ⟨some "user1", some "m1", some (-5)⟩).calls =
      ⟨0, 0, 0⟩ := by
  exact invalid_request_no_calls ⟨"t1", true, true, fun _ => false⟩
    [("user1", 5000)] ⟨[], []⟩ ⟨some "user1", some "m1", some (-5)⟩
    (by right; right; right; decide)

/-- C7: a credit-back request with both fields present addressed to a
registered user always succeeds with an empty body and the balance
incremented: there is no business-rejection path for the credit-back. -/
theorem creditback_always_ok (led : Ledger) (uid : String) (amt b : Int)
    (hu : uid ≠ "") (hb : lookupBal led uid = some b) :
    deposit led (some uid) (some amt) =
      (⟨none, 200⟩, setBal led uid (b + amt)) :=
  deposit_ok led uid amt b hu hb

/-- Witness for C7: a concrete credit-back of 10000 to a registered user
returns the empty 200 response and credits the balance. -/
theorem creditback_always_ok_witness :
    deposit [("user1", 40000)] (some "user1") (some 10000) =
      (⟨none, 200⟩, [("user1", 50000)]) :=
  creditback_always_ok [("user1", 40000)] "user1" 10000 40000 (by decide)
    (by decide)

/-- C8: the deposit applies no sign or range check: for every integer
amount, including zero and negative values, a request with both fields
present for a registered user returns an empty 200 response and sets the
balance to the old balance plus the amount, so a negative deposit can
drive a balance below zero. -/
theorem deposit_no_sign_check (led : Ledger) (uid : String) (amt b : Int)
    (hu : uid ≠ "") (hb : lookupBal led uid = some b) :
    (deposit led (some uid) (some amt)).1.status = 200 ∧
    (deposit led (some uid) (some amt)).1.error = none ∧
    lookupBal (deposit led (some uid) (some amt)).2 uid =
      some (b + amt) := by
  rw [deposit_ok led uid amt b hu hb]
  refine ⟨rfl, rfl, ?_⟩
  simp [lookupBal_setBal, hb]

/-- Witness for C8: depositing -500 onto a balance of 100 is accepted
with 200 and leaves the balance at -400, below zero. -/
theorem deposit_no_sign_check_witness :
    (deposit [("user1", 100)] (some "user1") (some (-500))).1.status =
      200 ∧
    (deposit [("user1", 100)] (some "user1") (some (-500))).1.error =
      none ∧
    lookupBal (deposit [("user1", 100)]
      (some "user1") (some (-500))).2 "user1" = some (-400) ∧
    (-400 : Int) < 0 := by
  have h := deposit_no_sign_check [("user1", 100)] "user1" (-500) 100
    (by decide) (by decide)
  exact ⟨h.1, h.2.1, h.2.2, by decide⟩

/-- C9: the settlement record operation past validation appends exactly
one row and credits the merchant (created at balance 0 when absent) in
one commit; when the commit raises, the state is rolled back unchanged
and TRANSACTION_STORE_FAIL is returned with 500; a missing merchant id
or amount is rejected with 400 and no state change; the transaction id
and user id fields are not required and do not influence the result. -/
theorem save_transaction_atomic :
    (∀ (sdb : SettlementDB) (req : SettleReq),
      req.merchant_id.getD "" ≠ "" → req.amount ≠ none →
      (save_transaction sdb req false).1 = ⟨none, 200⟩ ∧
      (save_transaction sdb req false).2.settlements =
        sdb.settlements ++
          [(req.merchant_id.getD "", req.amount.getD 0)] ∧
      lookupBal (save_transaction sdb req false).2.merchants
          (req.merchant_id.getD "") =
        some ((lookupBal sdb.merchants (req.merchant_id.getD "")).getD 0 +
          req.amount.getD 0)) ∧
    (∀ (sdb : SettlementDB) (req : SettleReq),
      req.merchant_id.getD "" ≠ "" → req.amount ≠ none →
      save_transaction sdb req true =
        (⟨some ApiError.TRANSACTION_STORE_FAIL, 500⟩, sdb)) ∧
    (∀ (sdb : SettlementDB) (req : SettleReq) (commitFails : Bool),
      req.merchant_id.getD "" = "" ∨ req.amount = none →
      save_transaction sdb req commitFails =
        (⟨some ApiError.INVALID_REQUEST, 400⟩, sdb)) ∧
    (∀ (sdb : SettlementDB) (req : SettleReq) (commitFails : Bool)
        (tid uid : Option String),
      save_transaction sdb ⟨tid, uid, req.merchant_id, req.amount⟩
          commitFails =
        save_transaction sdb req commitFails) := by
  refine ⟨?_, ?_, ?_, ?_⟩
  · intro sdb req hm ha
    rw [save_transaction_commit sdb req hm ha]
    refine ⟨rfl, rfl, ?_⟩
    rcases hmer : lookupBal sdb.merchants (req.merchant_id.getD "")
      with _ | mb
    · simp [hmer, lookupBal_append_fresh _ _ _ hmer]
    · simp [hmer, lookupBal_setBal]
  · intro sdb req hm ha
    exact save_transaction_rollback sdb req hm ha
  · intro sdb req commitFails h
    unfold save_transaction
    rw [if_pos h]
  · intro sdb req commitFails tid uid
    rfl

/-- Witness for C9: a concrete record commit appends the row and credits
the merchant from 0; the same request with a raising commit leaves the
database unchanged. -/
theorem save_transaction_atomic_witness :
    (save_transaction ⟨[], []⟩ ⟨some "t1", some "u1", some "m1",
        some 10000⟩ false).1 = ⟨none, 200⟩ ∧
    (save_transaction ⟨[], []⟩ ⟨some "t1", some "u1", some "m1",
        some 10000⟩ false).2.settlements = [("m1", 10000)] ∧
    lookupBal (save_transaction ⟨[], []⟩ ⟨some "t1", some "u1",
        some "m1", some 10000⟩ false).2.merchants "m1" = some 10000 ∧
    save_transaction ⟨[], []⟩ ⟨some "t1", some "u1", some "m1",
        some 10000⟩ true =
      (⟨some ApiError.TRANSACTION_STORE_FAIL, 500⟩, ⟨[], []⟩) ∧
    save_transaction ⟨[], []⟩ ⟨some "t1", some "u1", none,
        some 10000⟩ false =
      (⟨some ApiError.INVALID_REQUEST, 400⟩, ⟨[], []⟩) := by
  have h1 := save_transaction_atomic.1 ⟨[], []⟩
    ⟨some "t1", some "u1", some "m1", some 10000⟩ (by decide) (by decide)
  have h2 := save_transaction_atomic.2.1 ⟨[], []⟩
    ⟨some "t1", some "u1", some "m1", some 10000⟩ (by decide) (by decide)
  have h3 := save_transaction_atomic.2.2.1 ⟨[], []⟩
    ⟨some "t1", some "u1", none, some 10000⟩ false (by left; decide)
  exact ⟨h1.1, h1.2.1, h1.2.2, h2, h3⟩

/-- C10: withdraw preserves non-negativity: for an account at a
non-negative balance a 200 response occurs only when the amount is
positive and at most the balance, in which case the new balance is the
difference, still non-negative; every non-200 outcome leaves the ledger
unchanged. -/
theorem withdraw_nonneg_invariant :
    (∀ (led : Ledger) (uid : String) (amt b : Int),
      lookupBal led uid = some b → 0 ≤ b →
      (withdraw led (some uid) (some amt)).1.status = 200 →
      0 < amt ∧ amt ≤ b ∧
      lookupBal (withdraw led (some uid) (some amt)).2 uid =
        some (b - amt) ∧ 0 ≤ b - amt) ∧
    (∀ (led : Ledger) (u : Option String) (a : Option Int),
      (withdraw led u a).1.status ≠ 200 → (withdraw led u a).2 = led) := by
  constructor
  · intro led uid amt b hb hb0 h200
    obtain ⟨uid2, amt2, b2, h1, hne, h2, hb2, h0, hle, hw1, hw2⟩ :=
      withdraw_200_inv led (some uid) (some amt) h200
    obtain rfl : uid = uid2 := Option.some.inj h1
    obtain rfl : amt = amt2 := Option.some.inj h2
    have hbeq : b2 = b := by
      rw [hb] at hb2
      exact (Option.some.inj hb2).symm
    subst hbeq
    refine ⟨h0, hle, ?_, by omega⟩
    rw [hw2]
    simp [lookupBal_setBal, hb]
  · intro led u a h
    exact withdraw_ne200_unchanged led u a h

/-- Witness for C10: a withdraw of 10000 from 50000 succeeds and leaves
40000; a withdraw of 10000 from 5000 is not a 200 and leaves the ledger
unchanged. -/
theorem withdraw_nonneg_invariant_witness :
    ((0 : Int) < 10000 ∧ (10000 : Int) ≤ 50000 ∧
      lookupBal (withdraw [("user1", 50000)] (some "user1")
        (some 10000)).2 "user1" = some 40000 ∧
      (0 : Int) ≤ 40000) ∧
    (withdraw [("user1", 5000)] (some "user1") (some 10000)).2 =
      [("user1", 5000)] := by
  constructor
  · exact withdraw_nonneg_invariant.1 [("user1", 50000)] "user1" 10000
      50000 (by decide) (by decide) (by decide)
  · exact withdraw_nonneg_invariant.2 [("user1", 5000)] (some "user1")
      (some 10000) (by decide)

end QuickPay
